import Mathlib

/-!
Shallow embedding of the smartpos sale / inventory / cash-drawer / purchase
core (`smartpos/models.py`, `smartpos/serializers.py`, `smartpos/api_views.py`,
`smartpos/views.py`).

Modelling conventions:
* `DecimalField` money and quantity values are modelled as `ℚ` (Python's
  `Decimal` arithmetic on `+`, `-`, `*` is exact, and `ℚ` is a faithful
  superset; `Decimal` division by zero raises, which is modelled by an
  `Option` result where it can occur).
* Each database table is a list of rows; primary keys are `Nat`.
* Each Django view is a function from the database state and the request
  arguments to a response value paired with the resulting database state.
  In every embedded view except the legacy `create_sale` (views.py), all
  error responses in the source are returned before any write, so an error
  response is paired with the unchanged state.  The legacy `create_sale`
  returns its error response mid-loop, after earlier writes, and the
  embedding reproduces that.
* A Django multi-kwarg `.filter(...)` is a Boolean conjunction (`&&` of
  `decide`s) over the row.
* Timestamps (`created_at`, `opened_at`, ...) are `Nat` ticks supplied by a
  `now` field of the state; `DATE(created_at)` extraction is modelled by
  division by the number of seconds in a day.
-/

namespace SmartPOS

/-- One row of the `Product` table (models.py `Product`): primary key,
name, `cost_price` and `selling_price` (fields not read by any embedded
operation are omitted). -/
structure Product where
  pid : Nat
  name : String
  cost_price : ℚ
  selling_price : ℚ
  deriving DecidableEq, Repr

/-- The `Inventory` table (models.py `Inventory`): one `(product id,
quantity_on_hand)` entry per product that has an inventory row. -/
abbrev Inv := List (Nat × ℚ)

/-- Read `quantity_on_hand` for a product id (0 when the row is absent;
all theorems that depend on the row keep an explicit `hasKey` hypothesis,
since in the source a missing row raises instead). -/
def getQty (inv : Inv) (x : Nat) : ℚ :=
  match inv.find? (fun e => decide (e.1 = x)) with
  | some e => e.2
  | none => 0

/-- Does the inventory table hold a row for product id `x`? -/
def hasKey (inv : Inv) (x : Nat) : Bool :=
  (inv.find? (fun e => decide (e.1 = x))).isSome

/-- An ORM row update `inventory.quantity_on_hand = f(...); inventory.save()`
applied to the row with product id `p` (rows with other ids are kept
as they are). -/
def modifyQty : Inv → Nat → (ℚ → ℚ) → Inv
  | [], _, _ => []
  | e :: l, p, f => (e.1, if e.1 = p then f e.2 else e.2) :: modifyQty l p f

/-- `inventory.quantity_on_hand -= q; inventory.save()` (api_views.py line 280,
views.py line 172). -/
def debitOne (inv : Inv) (p : Nat) (q : ℚ) : Inv :=
  modifyQty inv p (fun v => v - q)

/-- `inventory.quantity_on_hand += q; inventory.save()` (api_views.py lines
426 and 646). -/
def creditOne (inv : Inv) (p : Nat) (q : ℚ) : Inv :=
  modifyQty inv p (fun v => v + q)

/-- The inventory effect of a loop of debits over `(product id, quantity)`
pairs, applied in list order. -/
def debitList (inv : Inv) (l : List (Nat × ℚ)) : Inv :=
  l.foldl (fun i e => debitOne i e.1 e.2) inv

/-- The inventory effect of a loop of credits over `(product id, quantity)`
pairs, applied in list order. -/
def creditList (inv : Inv) (l : List (Nat × ℚ)) : Inv :=
  l.foldl (fun i e => creditOne i e.1 e.2) inv

/-- One row of the `Sale` table (models.py `Sale`). -/
structure SaleRow where
  sid : Nat
  cashier : Nat
  customer : Option Nat
  total_amount : ℚ
  discount : ℚ
  tax : ℚ
  final_amount : ℚ
  payment_method : String
  reference_number : String
  created_at : Nat
  is_refunded : Bool
  deriving DecidableEq, Repr

/-- One row of the `SaleItem` table (models.py `SaleItem`); `subtotal` is
set to `quantity * unit_price` by `SaleItem.save`. -/
structure SaleItemRow where
  sale : Nat
  pid : Nat
  quantity : ℚ
  unit_price : ℚ
  subtotal : ℚ
  deriving DecidableEq, Repr

/-- One row of the `CashDrawer` table (models.py `CashDrawer`). -/
structure Drawer where
  did : Nat
  cashier : Nat
  opening_balance : ℚ
  closing_balance : Option ℚ
  opened_at : Nat
  closed_at : Option Nat
  is_open : Bool
  deriving DecidableEq, Repr

/-- One row of the `Purchase` table (models.py `Purchase`); `status` is
`"pending"` or `"received"`. -/
structure PurchaseRow where
  prid : Nat
  supplier : Nat
  total_amount : ℚ
  received_by : Nat
  delivery_date : Nat
  status : String
  deriving DecidableEq, Repr

/-- One row of the `PurchaseItem` table (models.py `PurchaseItem`). -/
structure PurchaseItemRow where
  purchase : Nat
  pid : Nat
  quantity : ℚ
  unit_cost : ℚ
  subtotal : ℚ
  deriving DecidableEq, Repr

/-- The whole persistent state: the tables the embedded operations touch,
fresh-id counters for rows the operations create, and the clock. -/
structure DB where
  products : List Product
  inventory : Inv
  sales : List SaleRow
  saleItems : List SaleItemRow
  drawers : List Drawer
  purchases : List PurchaseRow
  purchaseItems : List PurchaseItemRow
  suppliers : List Nat
  nextSaleId : Nat
  nextDrawerId : Nat
  nextPurchaseId : Nat
  now : Nat
  deriving DecidableEq, Repr

/-- `Product.objects.get(id=pid)` / primary-key resolution. -/
def findProduct (db : DB) (pid : Nat) : Option Product :=
  db.products.find? (fun p => decide (p.pid = pid))

/-- `Decimal` division: raises (`none`) on a zero divisor. -/
def divD (a b : ℚ) : Option ℚ :=
  if b = 0 then none else some (a / b)

namespace Product

/-- models.py lines 83-88, `Product.margin`: guards `cost_price == 0` and
otherwise computes `(selling_price - cost_price) / selling_price * 100`;
`none` is the `ZeroDivisionError` raised when `selling_price` is zero on
the unguarded path. -/
def margin (cost_price selling_price : ℚ) : Option ℚ :=
  if cost_price = 0 then some 0
  else (divD (selling_price - cost_price) selling_price).map (fun m => m * 100)

end Product

/-- Python `Decimal` rounding to an integer with ROUND_HALF_EVEN
(ties to the even neighbour), as used by `round(margin, 2)`. -/
def roundHalfEven (x : ℚ) : ℤ :=
  if x - ⌊x⌋ < 1/2 then ⌊x⌋
  else if 1/2 < x - ⌊x⌋ then ⌊x⌋ + 1
  else if ⌊x⌋ % 2 = 0 then ⌊x⌋ else ⌊x⌋ + 1

namespace ProductDetailSerializer

/-- serializers.py lines 165-170, `ProductDetailSerializer.get_margin`:
returns 0 when `selling_price` is zero, otherwise
`round(((selling_price - cost_price) / selling_price) * 100, 2)`. -/
def get_margin (cost_price selling_price : ℚ) : ℚ :=
  if selling_price = 0 then 0
  else (roundHalfEven ((selling_price - cost_price) / selling_price * 100 * 100) : ℚ) / 100

end ProductDetailSerializer

/-- Response of the legacy `create_sale` view (views.py): the
`JsonResponse({'success': True, 'sale_id': ...})` or the
`JsonResponse({'success': False, 'error': "Product ... not found"})`. -/
inductive LegacyResp where
  | success (sale_id : Nat)
  | failure (pid : Nat)
  deriving DecidableEq, Repr

/-- The item loop of views.py `create_sale` (lines 157-175): for each
`(product_id, quantity)` pair, resolve the product — returning the error
response immediately (with everything written so far still in the state)
when it is absent — else create the `SaleItem` at the product's current
`selling_price` and debit the inventory row. -/
def legacy_sale_loop : DB → Nat → List (Nat × ℚ) → LegacyResp × DB
  | db, sid, [] => (.success sid, db)
  | db, sid, (pid, q) :: rest =>
    match findProduct db pid with
    | none => (.failure pid, db)
    | some product =>
      legacy_sale_loop
        { db with
            saleItems :=
              db.saleItems ++ [⟨sid, pid, q, product.selling_price, q * product.selling_price⟩],
            inventory := debitOne db.inventory pid q }
        sid rest

/-- views.py lines 135-180, `create_sale`: creates the `Sale` row first
(no item validation of any kind), then runs the item loop. -/
def create_sale (db : DB) (cashier : Nat)
    (total_amount discount tax final_amount : ℚ)
    (payment_method reference_number : String)
    (items : List (Nat × ℚ)) : LegacyResp × DB :=
  let sid := db.nextSaleId
  let sale : SaleRow :=
    ⟨sid, cashier, none, total_amount, discount, tax, final_amount,
      payment_method, reference_number, db.now, false⟩
  legacy_sale_loop
    { db with sales := db.sales ++ [sale], nextSaleId := sid + 1 }
    sid items

/-- One line item of the create-sale request body: product id, quantity,
optional explicit unit price (serializers.py `SaleItemCreateSerializer`). -/
structure LineItem where
  pid : Nat
  quantity : ℚ
  unit_price : Option ℚ
  deriving DecidableEq, Repr

/-- serializers.py `SaleCreateSerializer` validation relevant to the item
list: `validate_items` (lines 386-390) rejects an empty list, and the
`PrimaryKeyRelatedField` inside `SaleItemCreateSerializer` rejects any
unknown product id — all before anything is written. -/
def itemsValid (db : DB) (items : List LineItem) : Bool :=
  !items.isEmpty && items.all (fun it => (findProduct db it.pid).isSome)

/-- Response of `SaleViewSet.create`: `201` with the new sale, or the `400`
raised by serializer validation. -/
inductive SaleCreateResp where
  | created (sid : Nat)
  | validationError
  deriving DecidableEq, Repr

/-- Response of `SaleViewSet.refund_sale`: `200`, the `400`
`'Sale already refunded'`, or the `404` of `get_object`. -/
inductive RefundResp where
  | ok
  | alreadyRefunded
  | notFound
  deriving DecidableEq, Repr

namespace SaleViewSet

/-- The body of the item loop of `SaleViewSet.create` (api_views.py lines
266-281): create one `SaleItem` (with `unit_price` defaulting to the
product's current `selling_price`) and debit the product's inventory row.
The validated data carries resolved products, so the lookup cannot fail
here; the `none` branch is unreachable after `itemsValid`. -/
def saleLine (db : DB) (sid : Nat) (it : LineItem) : DB :=
  match findProduct db it.pid with
  | some product =>
    let unit_price := it.unit_price.getD product.selling_price
    { db with
        saleItems :=
          db.saleItems ++ [⟨sid, it.pid, it.quantity, unit_price, it.quantity * unit_price⟩],
        inventory := debitOne db.inventory it.pid it.quantity }
  | none => db

/-- api_views.py lines 246-285, `SaleViewSet.create`: serializer
validation first (raising before any write), then the `Sale` row, then the
item loop. -/
def create (db : DB) (cashier : Nat) (customer : Option Nat)
    (total_amount discount tax final_amount : ℚ)
    (payment_method reference_number : String)
    (items : List LineItem) : SaleCreateResp × DB :=
  if itemsValid db items then
    (.created db.nextSaleId,
      items.foldl (fun d it => saleLine d db.nextSaleId it)
        { db with
            sales := db.sales ++
              [⟨db.nextSaleId, cashier, customer, total_amount, discount, tax, final_amount,
                payment_method, reference_number, db.now, false⟩],
            nextSaleId := db.nextSaleId + 1 })
  else (.validationError, db)

/-- api_views.py lines 412-433, `SaleViewSet.refund_sale`: `404` when the
sale is absent; `400` (before any write) when `is_refunded` is already
set; otherwise credit every item's quantity back and set the flag. -/
def refund_sale (db : DB) (sid : Nat) : RefundResp × DB :=
  match db.sales.find? (fun s => decide (s.sid = sid)) with
  | none => (.notFound, db)
  | some sale =>
    if sale.is_refunded then (.alreadyRefunded, db)
    else
      let its := db.saleItems.filter (fun it => decide (it.sale = sid))
      (.ok,
        { db with
            inventory := its.foldl (fun i it => creditOne i it.pid it.quantity) db.inventory,
            sales := db.sales.map
              (fun s => if s.sid = sid then { s with is_refunded := true } else s) })

end SaleViewSet

/-- The `SaleItem` row the api item loop writes for one line item, as a
function of the product table (used to characterise the loop; under the
serializer validation the `none` branch never occurs). -/
def rowOf (ps : List Product) (sid : Nat) (it : LineItem) : SaleItemRow :=
  match ps.find? (fun p => decide (p.pid = it.pid)) with
  | some product =>
    let unit_price := it.unit_price.getD product.selling_price
    ⟨sid, it.pid, it.quantity, unit_price, it.quantity * unit_price⟩
  | none => ⟨sid, it.pid, it.quantity, 0, 0⟩

/-- `DATE(created_at)`: the calendar date of a timestamp, modelled as the
day index of the tick. -/
def dateOf (t : Nat) : Nat := t / 86400

/-- `item.product.cost_price`: the current cost price of a product
(products are protected foreign keys, so the row exists whenever a
`SaleItem` references it; 0 is the out-of-model default). -/
def cost_price_of (db : DB) (pid : Nat) : ℚ :=
  ((findProduct db pid).map (fun p => p.cost_price)).getD 0

/-- `item.product.name` for the top-products aggregation. -/
def product_name_of (db : DB) (pid : Nat) : String :=
  ((findProduct db pid).map (fun p => p.name)).getD ""

/-- `sale.items.all()`. -/
def itemsOfSale (db : DB) (sid : Nat) : List SaleItemRow :=
  db.saleItems.filter (fun it => decide (it.sale = sid))

/-- The per-sale profit loop of `daily_summary` (api_views.py lines
305-309): sum over the sale's items of `subtotal - cost_price * quantity`,
with the product's current cost price. -/
def saleProfit (db : DB) (sid : Nat) : ℚ :=
  ((itemsOfSale db sid).map (fun it => it.subtotal - cost_price_of db it.pid * it.quantity)).sum

/-- The date of the sale a `SaleItem` belongs to (the
`sale__created_at__date` join used by the top-products query). -/
def saleDate (db : DB) (sid : Nat) : Option Nat :=
  (db.sales.find? (fun s => decide (s.sid = sid))).map (fun s => dateOf s.created_at)

/-- Insert one `(name, qty, revenue)` row into a list sorted by descending
revenue (the `order_by('-revenue')` of the top-products query). -/
def insertByRev (a : String × ℚ × ℚ) : List (String × ℚ × ℚ) → List (String × ℚ × ℚ)
  | [] => [a]
  | b :: l => if b.2.2 ≤ a.2.2 then a :: b :: l else b :: insertByRev a l

/-- Sort `(name, qty, revenue)` rows by descending revenue. -/
def sortByRev : List (String × ℚ × ℚ) → List (String × ℚ × ℚ)
  | [] => []
  | a :: l => insertByRev a (sortByRev l)

/-- The top-products query of `daily_summary` (api_views.py lines 311-317):
`SaleItem`s of sales created on the date, grouped by product name with
summed quantity and revenue, ordered by descending revenue, first five. -/
def top_products_for (db : DB) (d : Nat) : List (String × ℚ × ℚ) :=
  (sortByRev ((((db.saleItems.filter (fun it => decide (saleDate db it.sale = some d))).map
      (fun it => product_name_of db it.pid)).dedup).map (fun n =>
    (n,
      (((db.saleItems.filter (fun it => decide (saleDate db it.sale = some d))).filter
        (fun it => decide (product_name_of db it.pid = n))).map (fun it => it.quantity)).sum,
      (((db.saleItems.filter (fun it => decide (saleDate db it.sale = some d))).filter
        (fun it => decide (product_name_of db it.pid = n))).map
          (fun it => it.subtotal)).sum)))).take 5

/-- The response of `SaleViewSet.daily_summary`. -/
structure DailySummary where
  date : Nat
  total_sales : ℚ
  total_profit : ℚ
  transaction_count : Nat
  average_transaction : ℚ
  top_products : List (String × ℚ × ℚ)
  payment_distribution : List (String × Nat × ℚ)
  deriving DecidableEq, Repr

namespace SaleViewSet

/-- api_views.py lines 287-333, `SaleViewSet.daily_summary`: filters
`Sale.objects.filter(created_at__date=date)` (no condition on
`is_refunded`), then aggregates totals, count, average, the profit loop,
top products and the payment-method distribution. -/
def daily_summary (db : DB) (d : Nat) : DailySummary :=
  ⟨d,
    ((db.sales.filter (fun s => decide (dateOf s.created_at = d))).map
      (fun s => s.final_amount)).sum,
    ((db.sales.filter (fun s => decide (dateOf s.created_at = d))).map
      (fun s => saleProfit db s.sid)).sum,
    (db.sales.filter (fun s => decide (dateOf s.created_at = d))).length,
    (if (db.sales.filter (fun s => decide (dateOf s.created_at = d))).length = 0 then 0
     else ((db.sales.filter (fun s => decide (dateOf s.created_at = d))).map
         (fun s => s.final_amount)).sum /
       (((db.sales.filter (fun s => decide (dateOf s.created_at = d))).length : Nat) : ℚ)),
    top_products_for db d,
    (((db.sales.filter (fun s => decide (dateOf s.created_at = d))).map
        (fun s => s.payment_method)).dedup).map (fun m =>
      (m,
        ((db.sales.filter (fun s => decide (dateOf s.created_at = d))).filter
          (fun s => decide (s.payment_method = m))).length,
        (((db.sales.filter (fun s => decide (dateOf s.created_at = d))).filter
          (fun s => decide (s.payment_method = m))).map (fun s => s.final_amount)).sum))⟩

end SaleViewSet

/-- Overwrite every sale's `is_refunded` flag by an arbitrary function of
its id (used to state that `daily_summary` never reads the flag). -/
def setFlags (db : DB) (f : Nat → Bool) : DB :=
  { db with sales := db.sales.map (fun s => { s with is_refunded := f s.sid }) }

/-- The report returned by a successful `close_drawer`. -/
structure CloseReport where
  opening_balance : ℚ
  closing_balance : ℚ
  difference : ℚ
  expected_cash : ℚ
  deriving DecidableEq, Repr

/-- Response of `CashDrawerViewSet.close_drawer`: the reconciliation
report, the `400` `'Drawer is already closed'`, the `400`
`'closing_balance is required'`, or the `404` of `get_object`. -/
inductive CloseResp where
  | closed (r : CloseReport)
  | alreadyClosed
  | closingRequired
  | notFound
  deriving DecidableEq, Repr

namespace CashDrawerViewSet

/-- api_views.py lines 506-522, `CashDrawerViewSet.open_drawer`: return
the cashier's open drawer if one exists (ignoring the `opening_balance`
argument), else create a new open drawer with the supplied
`opening_balance`. -/
def open_drawer (db : DB) (cashier : Nat) (opening_balance : ℚ) : Drawer × DB :=
  match db.drawers.find? (fun d => decide (d.cashier = cashier) && d.is_open) with
  | some drawer => (drawer, db)
  | none =>
    let drawer : Drawer :=
      ⟨db.nextDrawerId, cashier, opening_balance, none, db.now, none, true⟩
    (drawer, { db with drawers := db.drawers ++ [drawer], nextDrawerId := db.nextDrawerId + 1 })

/-- api_views.py lines 524-562, `CashDrawerViewSet.close_drawer`: reject a
closed drawer and a missing `closing_balance` before any write; otherwise
set `closing_balance`, `closed_at`, `is_open = false` and answer with the
reconciliation report, whose `expected_cash` sums `final_amount` over
`Sale.objects.filter(cashier=drawer.cashier, created_at__gte=
drawer.opened_at, payment_method='cash')`. -/
def close_drawer (db : DB) (did : Nat) (closing_balance : Option ℚ) : CloseResp × DB :=
  match db.drawers.find? (fun d => decide (d.did = did)) with
  | none => (.notFound, db)
  | some drawer =>
    if drawer.is_open = false then (.alreadyClosed, db)
    else
      match closing_balance with
      | none => (.closingRequired, db)
      | some cb =>
        let drawer' :=
          { drawer with closing_balance := some cb, closed_at := some db.now, is_open := false }
        let db' := { db with drawers := db.drawers.map (fun d => if d.did = did then drawer' else d) }
        (.closed
          ⟨drawer.opening_balance, cb, cb - drawer.opening_balance,
            ((db'.sales.filter (fun s =>
                decide (s.cashier = drawer.cashier) && decide (drawer.opened_at ≤ s.created_at) &&
                  decide (s.payment_method = "cash"))).map (fun s => s.final_amount)).sum⟩,
          db')

end CashDrawerViewSet

/-- Modelled from the spec: `expected_cash` = sum of `final_amount` over
all cash-payment Sales by this cashier with `created_at ≥ opened_at`.
Written from the spec's words, to be compared with the code path in C5. -/
def specExpectedCash (sales : List SaleRow) (drawer : Drawer) : ℚ :=
  ((sales.filter (fun s =>
      decide (s.payment_method = "cash") && decide (s.cashier = drawer.cashier) &&
        decide (drawer.opened_at ≤ s.created_at))).map (fun s => s.final_amount)).sum

/-- Response of `PurchaseViewSet.create`: `201` with the new purchase, or
the `400` raised by serializer validation. -/
inductive PurchaseCreateResp where
  | created (prid : Nat)
  | validationError
  deriving DecidableEq, Repr

/-- Response of `PurchaseViewSet.mark_received`: `200`, the `400`
`'Purchase already marked as received'`, or the `404` of `get_object`. -/
inductive MarkReceivedResp where
  | ok
  | alreadyReceived
  | notFound
  deriving DecidableEq, Repr

/-- One line item of the create-purchase request body: product id,
quantity, unit cost (serializers.py `PurchaseItemCreateSerializer`). -/
structure PurchaseLineItem where
  pid : Nat
  quantity : ℚ
  unit_cost : ℚ
  deriving DecidableEq, Repr

/-- serializers.py `PurchaseCreateSerializer` validation: supplier must
exist, `status` must be one of the two choices, `validate_items` (lines
543-547) rejects an empty list, and the item `PrimaryKeyRelatedField`
rejects unknown products — all before anything is written. -/
def purchaseValid (db : DB) (supplier : Nat) (stat : String)
    (items : List PurchaseLineItem) : Bool :=
  db.suppliers.contains supplier &&
    (decide (stat = "pending") || decide (stat = "received")) &&
    !items.isEmpty && items.all (fun it => (findProduct db it.pid).isSome)

namespace PurchaseViewSet

/-- api_views.py lines 596-630, `PurchaseViewSet.create`: serializer
validation first, then the `Purchase` row with the supplied `status`
(`data.get('status', 'pending')`), then one `PurchaseItem` per line with
`subtotal = quantity * unit_cost`.  Inventory is never touched here. -/
def create (db : DB) (supplier : Nat) (total_amount : ℚ) (received_by : Nat)
    (delivery_date : Nat) (stat : String)
    (items : List PurchaseLineItem) : PurchaseCreateResp × DB :=
  if purchaseValid db supplier stat items then
    (.created db.nextPurchaseId,
      items.foldl (fun d it =>
        { d with purchaseItems :=
            d.purchaseItems ++ [⟨db.nextPurchaseId, it.pid, it.quantity, it.unit_cost,
              it.quantity * it.unit_cost⟩] })
        { db with
            purchases := db.purchases ++
              [⟨db.nextPurchaseId, supplier, total_amount, received_by, delivery_date, stat⟩],
            nextPurchaseId := db.nextPurchaseId + 1 })
  else (.validationError, db)

/-- api_views.py lines 632-653, `PurchaseViewSet.mark_received`: `404`
when the purchase is absent; `400` (before any write) when `status` is
already `'received'`; otherwise credit each item's quantity to inventory
and set `status = 'received'`. -/
def mark_received (db : DB) (prid : Nat) : MarkReceivedResp × DB :=
  match db.purchases.find? (fun p => decide (p.prid = prid)) with
  | none => (.notFound, db)
  | some purchase =>
    if purchase.status = "received" then (.alreadyReceived, db)
    else
      let its := db.purchaseItems.filter (fun it => decide (it.purchase = prid))
      (.ok,
        { db with
            inventory := its.foldl (fun i it => creditOne i it.pid it.quantity) db.inventory,
            purchases := db.purchases.map
              (fun p => if p.prid = prid then { p with status := "received" } else p) })

end PurchaseViewSet

/-- State with one product (id 1, cost 2, selling 5) whose inventory row
holds 10 units, and no other rows. -/
def dbC1 : DB :=
  { products := [⟨1, "soda", 2, 5⟩]
    inventory := [(1, 10)]
    sales := []
    saleItems := []
    drawers := []
    purchases := []
    purchaseItems := []
    suppliers := []
    nextSaleId := 0
    nextDrawerId := 0
    nextPurchaseId := 0
    now := 0 }

/-- Empty state used by the C4 counterexample. -/
def dbC4 : DB :=
  { products := []
    inventory := []
    sales := []
    saleItems := []
    drawers := []
    purchases := []
    purchaseItems := []
    suppliers := []
    nextSaleId := 0
    nextDrawerId := 0
    nextPurchaseId := 0
    now := 0 }

/-- State for the C5 witness: cashier 7 has open drawer 1 with opening
balance 100 opened at tick 0, and one cash sale of 50 at tick 5. -/
def dbC5 : DB :=
  { products := []
    inventory := []
    sales := [⟨1, 7, none, 50, 0, 0, 50, "cash", "", 5, false⟩]
    saleItems := []
    drawers := [⟨1, 7, 100, none, 0, none, true⟩]
    purchases := []
    purchaseItems := []
    suppliers := []
    nextSaleId := 2
    nextDrawerId := 2
    nextPurchaseId := 0
    now := 9 }

/-- The open drawer of `dbC5`. -/
def drawerC5 : Drawer := ⟨1, 7, 100, none, 0, none, true⟩

/-- State for the C7 witness: cashier 7 already has open drawer 1. -/
def dbC7 : DB :=
  { products := []
    inventory := []
    sales := []
    saleItems := []
    drawers := [⟨1, 7, 100, none, 0, none, true⟩]
    purchases := []
    purchaseItems := []
    suppliers := []
    nextSaleId := 0
    nextDrawerId := 2
    nextPurchaseId := 0
    now := 3 }

/-- The open drawer of `dbC7`. -/
def drawerC7 : Drawer := ⟨1, 7, 100, none, 0, none, true⟩

/-- State for the C2/C8 witnesses: product 1 (selling price 5) with 10
units on hand. -/
def dbC2 : DB :=
  { products := [⟨1, "soda", 2, 5⟩]
    inventory := [(1, 10)]
    sales := []
    saleItems := []
    drawers := []
    purchases := []
    purchaseItems := []
    suppliers := []
    nextSaleId := 0
    nextDrawerId := 0
    nextPurchaseId := 0
    now := 0 }

/-- The state after selling 3 units of product 1 in `dbC2`. -/
def dbC2sold : DB :=
  (SaleViewSet.create dbC2 5 none 15 0 0 15 "cash" "" [⟨1, 3, none⟩]).2

/-- The state after selling 12 units of product 1 in `dbC2` (only 10 on
hand). -/
def dbC8sold : DB :=
  (SaleViewSet.create dbC2 5 none 60 0 0 60 "cash" "" [⟨1, 12, none⟩]).2

/-- State for the C3 witness: sale 1 (not yet refunded) of 3 units of
product 1, with 7 units on hand. -/
def dbC3 : DB :=
  { products := [⟨1, "soda", 2, 5⟩]
    inventory := [(1, 7)]
    sales := [⟨1, 5, none, 15, 0, 0, 15, "cash", "", 0, false⟩]
    saleItems := [⟨1, 1, 3, 5, 15⟩]
    drawers := []
    purchases := []
    purchaseItems := []
    suppliers := []
    nextSaleId := 2
    nextDrawerId := 0
    nextPurchaseId := 0
    now := 4 }

/-- The state after the first (successful) refund of sale 1 of `dbC3`. -/
def dbC3refunded : DB := (SaleViewSet.refund_sale dbC3 1).2

/-- State for the C9 witness: one sale on day 0 (refundable) and one item. -/
def dbC9 : DB :=
  { products := [⟨1, "soda", 2, 5⟩]
    inventory := [(1, 7)]
    sales := [⟨1, 5, none, 15, 0, 0, 15, "cash", "", 10, false⟩]
    saleItems := [⟨1, 1, 3, 5, 15⟩]
    drawers := []
    purchases := []
    purchaseItems := []
    suppliers := []
    nextSaleId := 2
    nextDrawerId := 0
    nextPurchaseId := 0
    now := 20 }

/-- The state after refunding sale 1 of `dbC9`. -/
def dbC9refunded : DB := (SaleViewSet.refund_sale dbC9 1).2

/-- State for the C10 witness: supplier 3 and product 1 exist, inventory
of product 1 is 10. -/
def dbC10 : DB :=
  { products := [⟨1, "soda", 2, 5⟩]
    inventory := [(1, 10)]
    sales := []
    saleItems := []
    drawers := []
    purchases := []
    purchaseItems := []
    suppliers := [3]
    nextSaleId := 0
    nextDrawerId := 0
    nextPurchaseId := 0
    now := 0 }

/-- The state after creating a purchase with status `"received"` in
`dbC10`. -/
def dbC10created : DB :=
  (PurchaseViewSet.create dbC10 3 10 5 30 "received" [⟨1, 5, 2⟩]).2

/-- Two filters with pointwise-equal predicates agree. -/
theorem filter_ext {α : Type} {p q : α → Bool} (h : ∀ a, p a = q a) (l : List α) :
    l.filter p = l.filter q := by
  induction l with
  | nil => rfl
  | cons a l ih => simp only [List.filter, h a, ih]

/-- Two maps with pointwise-equal functions agree. -/
theorem map_ext {α β : Type} {f g : α → β} (h : ∀ a, f a = g a) (l : List α) :
    l.map f = l.map g := by
  induction l with
  | nil => rfl
  | cons a l ih => simp only [List.map, h a, ih]

/-- When nothing in the first part matches, `find?` over an append searches
the second part. -/
theorem find?_append_none {α : Type} {p : α → Bool} {l₁ l₂ : List α}
    (h : l₁.find? p = none) : (l₁ ++ l₂).find? p = l₂.find? p := by
  induction l₁ with
  | nil => rfl
  | cons a l ih =>
    cases hpa : p a with
    | true => simp [List.find?, hpa] at h
    | false =>
      simp only [List.find?, hpa] at h
      simpa only [List.cons_append, List.find?, hpa] using ih h

/-- `find?` over a mapped list. -/
theorem find?_map {α β : Type} (f : β → α) (p : α → Bool) (l : List β) :
    (l.map f).find? p = (l.find? (fun b => p (f b))).map f := by
  induction l with
  | nil => rfl
  | cons a l ih =>
    cases hpa : p (f a) with
    | true => simp [List.find?, hpa]
    | false => simpa [List.find?, hpa] using ih

/-- `filter` over a mapped list. -/
theorem filter_map_comm {α β : Type} (f : β → α) (p : α → Bool) (l : List β) :
    (l.map f).filter p = (l.filter (fun b => p (f b))).map f := by
  induction l with
  | nil => rfl
  | cons a l ih =>
    cases hpa : p (f a) with
    | true => simp [List.filter, hpa, ih]
    | false => simp [List.filter, hpa, ih]

/-- A `find?` with a nowhere-true predicate is `none`. -/
theorem find?_eq_none_of {α : Type} {p : α → Bool} {l : List α}
    (h : ∀ a ∈ l, p a = false) : l.find? p = none := by
  induction l with
  | nil => rfl
  | cons a l ih =>
    have ha := h a (List.mem_cons_self a l)
    simpa only [List.find?, ha] using ih (fun b hb => h b (List.mem_cons_of_mem a hb))

/-- A filter with a nowhere-true predicate is empty. -/
theorem filter_eq_nil_of {α : Type} {p : α → Bool} {l : List α}
    (h : ∀ a ∈ l, p a = false) : l.filter p = [] := by
  induction l with
  | nil => rfl
  | cons a l ih =>
    have ha := h a (List.mem_cons_self a l)
    simp only [List.filter, ha]
    exact ih (fun b hb => h b (List.mem_cons_of_mem a hb))

/-- A filter with an everywhere-true predicate keeps the list. -/
theorem filter_eq_self_of {α : Type} {p : α → Bool} {l : List α}
    (h : ∀ a ∈ l, p a = true) : l.filter p = l := by
  induction l with
  | nil => rfl
  | cons a l ih =>
    have ha := h a (List.mem_cons_self a l)
    simp only [List.filter, ha]
    rw [ih (fun b hb => h b (List.mem_cons_of_mem a hb))]

/-- `find?` takes the head when the predicate holds there. -/
theorem find?_cons_true {α : Type} {p : α → Bool} {a : α} (h : p a = true) (l : List α) :
    (a :: l).find? p = some a := by
  simp [List.find?, h]

/-- `find?` skips the head when the predicate fails there. -/
theorem find?_cons_false {α : Type} {p : α → Bool} {a : α} (h : p a = false) (l : List α) :
    (a :: l).find? p = l.find? p := by
  simp [List.find?, h]

/-- `modifyQty` preserves which product ids have an inventory row. -/
theorem hasKey_modifyQty (inv : Inv) (p : Nat) (f : ℚ → ℚ) (x : Nat) :
    hasKey (modifyQty inv p f) x = hasKey inv x := by
  induction inv with
  | nil => rfl
  | cons e l ih =>
    simp only [modifyQty]
    unfold hasKey
    by_cases hex : e.1 = x
    · rw [find?_cons_true (by simp [hex]) _, find?_cons_true (by simp [hex]) _]
      rfl
    · rw [find?_cons_false (by simp [hex]) _, find?_cons_false (by simp [hex]) _]
      exact ih

/-- A missing inventory row reads as quantity 0. -/
theorem getQty_absent {inv : Inv} {x : Nat} (h : hasKey inv x = false) :
    getQty inv x = 0 := by
  unfold getQty
  unfold hasKey at h
  cases hf : inv.find? (fun e => decide (e.1 = x)) with
  | none => rfl
  | some e => rw [hf] at h; simp at h

/-- `modifyQty` at one id does not change the quantity read at another. -/
theorem getQty_modifyQty_ne {p x : Nat} (hx : x ≠ p) (inv : Inv) (f : ℚ → ℚ) :
    getQty (modifyQty inv p f) x = getQty inv x := by
  induction inv with
  | nil => rfl
  | cons e l ih =>
    simp only [modifyQty]
    unfold getQty
    by_cases hex : e.1 = x
    · rw [find?_cons_true (by simp [hex]) _, find?_cons_true (by simp [hex]) _]
      have hep : ¬ e.1 = p := fun hep => hx (hex ▸ hep)
      simp [hep]
    · rw [find?_cons_false (by simp [hex]) _, find?_cons_false (by simp [hex]) _]
      exact ih

/-- `modifyQty` applies `f` to the quantity of a present row. -/
theorem getQty_modifyQty_self {inv : Inv} {p : Nat} (hp : hasKey inv p = true)
    (f : ℚ → ℚ) : getQty (modifyQty inv p f) p = f (getQty inv p) := by
  induction inv with
  | nil => simp [hasKey, List.find?] at hp
  | cons e l ih =>
    simp only [modifyQty]
    unfold getQty
    by_cases hep : e.1 = p
    · rw [find?_cons_true (by simp [hep]) _, find?_cons_true (by simp [hep]) _]
      simp [hep]
    · have hp' : hasKey l p = true := by
        unfold hasKey at hp
        rwa [find?_cons_false (by simp [hep]) _] at hp
      rw [find?_cons_false (by simp [hep]) _, find?_cons_false (by simp [hep]) _]
      exact ih hp'

/-- A loop of debits preserves which product ids have an inventory row. -/
theorem hasKey_debitList (l : List (Nat × ℚ)) (inv : Inv) (x : Nat) :
    hasKey (debitList inv l) x = hasKey inv x := by
  induction l generalizing inv with
  | nil => rfl
  | cons e l ih =>
    show hasKey (debitList (debitOne inv e.1 e.2) l) x = hasKey inv x
    rw [ih]
    exact hasKey_modifyQty inv e.1 _ x

/-- A loop of credits preserves which product ids have an inventory row. -/
theorem hasKey_creditList (l : List (Nat × ℚ)) (inv : Inv) (x : Nat) :
    hasKey (creditList inv l) x = hasKey inv x := by
  induction l generalizing inv with
  | nil => rfl
  | cons e l ih =>
    show hasKey (creditList (creditOne inv e.1 e.2) l) x = hasKey inv x
    rw [ih]
    exact hasKey_modifyQty inv e.1 _ x

/-- The quantity after a loop of debits: the old quantity minus the summed
debits against that id (for a present row). -/
theorem getQty_debitList (l : List (Nat × ℚ)) (inv : Inv) (x : Nat)
    (h : hasKey inv x = true) :
    getQty (debitList inv l) x =
      getQty inv x - ((l.filter (fun e => decide (e.1 = x))).map (fun e => e.2)).sum := by
  induction l generalizing inv with
  | nil => simp [debitList]
  | cons e l ih =>
    have h' : hasKey (debitOne inv e.1 e.2) x = true := by
      rw [debitOne, hasKey_modifyQty]; exact h
    show getQty (debitList (debitOne inv e.1 e.2) l) x = _
    rw [ih _ h']
    by_cases hex : e.1 = x
    · subst hex
      rw [debitOne, getQty_modifyQty_self h]
      simp [List.filter]
      ring
    · rw [debitOne, getQty_modifyQty_ne (fun hh => hex hh.symm)]
      simp [List.filter, hex]

/-- The quantity after a loop of credits: the old quantity plus the summed
credits against that id (for a present row). -/
theorem getQty_creditList (l : List (Nat × ℚ)) (inv : Inv) (x : Nat)
    (h : hasKey inv x = true) :
    getQty (creditList inv l) x =
      getQty inv x + ((l.filter (fun e => decide (e.1 = x))).map (fun e => e.2)).sum := by
  induction l generalizing inv with
  | nil => simp [creditList]
  | cons e l ih =>
    have h' : hasKey (creditOne inv e.1 e.2) x = true := by
      rw [creditOne, hasKey_modifyQty]; exact h
    show getQty (creditList (creditOne inv e.1 e.2) l) x = _
    rw [ih _ h']
    by_cases hex : e.1 = x
    · subst hex
      rw [creditOne, getQty_modifyQty_self h]
      simp [List.filter]
      ring
    · rw [creditOne, getQty_modifyQty_ne (fun hh => hex hh.symm)]
      simp [List.filter, hex]

/-- Crediting back the same `(id, quantity)` pairs that were debited
restores every quantity. -/
theorem creditList_debitList_roundtrip (inv : Inv) (l : List (Nat × ℚ)) (x : Nat) :
    getQty (creditList (debitList inv l) l) x = getQty inv x := by
  cases h : hasKey inv x with
  | false =>
    have h1 : hasKey (debitList inv l) x = false := by rw [hasKey_debitList]; exact h
    have h2 : hasKey (creditList (debitList inv l) l) x = false := by
      rw [hasKey_creditList]; exact h1
    rw [getQty_absent h2, getQty_absent h]
  | true =>
    have h1 : hasKey (debitList inv l) x = true := by rw [hasKey_debitList]; exact h
    rw [getQty_creditList _ _ _ h1, getQty_debitList _ _ _ h]
    ring

/-- The `SaleItem` row written by the api item loop carries the sale id it
was created under. -/
theorem rowOf_sale (ps : List Product) (sid : Nat) (it : LineItem) :
    (rowOf ps sid it).sale = sid := by
  unfold rowOf
  cases ps.find? (fun p => decide (p.pid = it.pid)) <;> rfl

/-- The `SaleItem` row written by the api item loop carries the line item's
product id. -/
theorem rowOf_pid (ps : List Product) (sid : Nat) (it : LineItem) :
    (rowOf ps sid it).pid = it.pid := by
  unfold rowOf
  cases ps.find? (fun p => decide (p.pid = it.pid)) <;> rfl

/-- The `SaleItem` row written by the api item loop carries the line item's
quantity. -/
theorem rowOf_quantity (ps : List Product) (sid : Nat) (it : LineItem) :
    (rowOf ps sid it).quantity = it.quantity := by
  unfold rowOf
  cases ps.find? (fun p => decide (p.pid = it.pid)) <;> rfl

/-- Characterisation of the api item loop: when every line item's product
resolves, it appends one row per item and debits each quantity. -/
theorem saleFold_eq (sid : Nat) (items : List LineItem) (ps : List Product) :
    ∀ d : DB, d.products = ps →
      items.all (fun it => (ps.find? (fun q => decide (q.pid = it.pid))).isSome) = true →
      items.foldl (fun a it => SaleViewSet.saleLine a sid it) d =
        { d with
            saleItems := d.saleItems ++ items.map (rowOf ps sid),
            inventory := debitList d.inventory (items.map (fun it => (it.pid, it.quantity))) } := by
  induction items with
  | nil =>
    intro d _ _
    simp [debitList]
  | cons it items ih =>
    intro d hps h
    simp only [List.all_cons, Bool.and_eq_true] at h
    obtain ⟨hit, hrest⟩ := h
    obtain ⟨p, hp⟩ := Option.isSome_iff_exists.mp hit
    have hfp : findProduct d it.pid = some p := by
      unfold findProduct
      rw [hps]
      exact hp
    have hline : SaleViewSet.saleLine d sid it =
        { d with
            saleItems := d.saleItems ++ [rowOf ps sid it],
            inventory := debitOne d.inventory it.pid it.quantity } := by
      simp only [SaleViewSet.saleLine, hfp, rowOf, hp]
    rw [List.foldl_cons, hline,
      ih { d with
          saleItems := d.saleItems ++ [rowOf ps sid it],
          inventory := debitOne d.inventory it.pid it.quantity } hps hrest]
    simp [debitList, List.append_assoc]

/-- Characterisation of a valid `SaleViewSet.create`: the Sale row, one
SaleItem row per line item, and one inventory debit per line item. -/
theorem create_eq_of_valid (db : DB) (cashier : Nat) (customer : Option Nat)
    (total_amount discount tax final_amount : ℚ) (payment_method reference_number : String)
    (items : List LineItem) (hv : itemsValid db items = true) :
    SaleViewSet.create db cashier customer total_amount discount tax final_amount
        payment_method reference_number items =
      (.created db.nextSaleId,
        { db with
            sales := db.sales ++
              [⟨db.nextSaleId, cashier, customer, total_amount, discount, tax, final_amount,
                payment_method, reference_number, db.now, false⟩],
            nextSaleId := db.nextSaleId + 1,
            saleItems := db.saleItems ++ items.map (rowOf db.products db.nextSaleId),
            inventory := debitList db.inventory (items.map (fun it => (it.pid, it.quantity))) }) := by
  have hall : items.all
      (fun it => (db.products.find? (fun q => decide (q.pid = it.pid))).isSome) = true := by
    have hv' := hv
    simp only [itemsValid, Bool.and_eq_true] at hv'
    exact hv'.2
  unfold SaleViewSet.create
  rw [if_pos hv,
    saleFold_eq db.nextSaleId items db.products
      { db with
          sales := db.sales ++
            [⟨db.nextSaleId, cashier, customer, total_amount, discount, tax, final_amount,
              payment_method, reference_number, db.now, false⟩],
          nextSaleId := db.nextSaleId + 1 }
      rfl hall]

/-- Characterisation of a successful `refund_sale`: the per-item credit
loop and the flag update. -/
theorem refund_eq_of (db : DB) (sid : Nat) (sale : SaleRow)
    (hfind : db.sales.find? (fun s => decide (s.sid = sid)) = some sale)
    (hnr : sale.is_refunded = false) :
    SaleViewSet.refund_sale db sid =
      (.ok,
        { db with
            inventory := (db.saleItems.filter (fun it => decide (it.sale = sid))).foldl
              (fun i it => creditOne i it.pid it.quantity) db.inventory,
            sales := db.sales.map
              (fun s => if s.sid = sid then { s with is_refunded := true } else s) }) := by
  unfold SaleViewSet.refund_sale
  rw [hfind]
  simp [hnr]

/-- A successful `refund_sale` answers `ok`. -/
theorem refund_resp_eq (db : DB) (sid : Nat) (sale : SaleRow)
    (hfind : db.sales.find? (fun s => decide (s.sid = sid)) = some sale)
    (hnr : sale.is_refunded = false) :
    (SaleViewSet.refund_sale db sid).1 = RefundResp.ok := by
  rw [refund_eq_of db sid sale hfind hnr]

/-- The inventory left by a successful `refund_sale`. -/
theorem refund_inventory_eq (db : DB) (sid : Nat) (sale : SaleRow)
    (hfind : db.sales.find? (fun s => decide (s.sid = sid)) = some sale)
    (hnr : sale.is_refunded = false) :
    (SaleViewSet.refund_sale db sid).2.inventory =
      (db.saleItems.filter (fun it => decide (it.sale = sid))).foldl
        (fun i it => creditOne i it.pid it.quantity) db.inventory := by
  rw [refund_eq_of db sid sale hfind hnr]

/-- `refund_sale` on a sale whose flag is set answers the already-refunded
error with the state unchanged. -/
theorem refund_already (db : DB) (sid : Nat) (sale : SaleRow)
    (hfind : db.sales.find? (fun s => decide (s.sid = sid)) = some sale)
    (hr : sale.is_refunded = true) :
    SaleViewSet.refund_sale db sid = (.alreadyRefunded, db) := by
  unfold SaleViewSet.refund_sale
  rw [hfind]
  simp [hr]

/-- After a refund's flag update, looking the sale up again finds it with
the flag set. -/
theorem find?_sales_after_refund (db : DB) (sid : Nat) (sale : SaleRow)
    (hfind : db.sales.find? (fun s => decide (s.sid = sid)) = some sale) :
    (db.sales.map (fun s => if s.sid = sid then { s with is_refunded := true } else s)).find?
        (fun s => decide (s.sid = sid)) =
      some { sale with is_refunded := true } := by
  rw [find?_map]
  have hpred : (fun s : SaleRow =>
      (fun t : SaleRow => decide (t.sid = sid))
        (if s.sid = sid then { s with is_refunded := true } else s)) =
      (fun s : SaleRow => decide (s.sid = sid)) := by
    funext s
    by_cases h : s.sid = sid <;> simp [h]
  rw [hpred, hfind]
  have hps := List.find?_some hfind
  have hsid : sale.sid = sid := of_decide_eq_true hps
  simp [hsid]

/-- The credit loop of `refund_sale` over explicit rows, as a
`creditList`. -/
theorem creditFold_eq (l : List SaleItemRow) :
    ∀ inv : Inv, l.foldl (fun i it => creditOne i it.pid it.quantity) inv =
      creditList inv (l.map (fun it => (it.pid, it.quantity))) := by
  induction l with
  | nil => intro inv; rfl
  | cons it l ih =>
    intro inv
    rw [List.foldl_cons, ih]
    rfl

/-- C2: committing a sale through `SaleViewSet.create` and then refunding
it restores every product's `quantity_on_hand` to its value before the
commit — the refund's per-item credit is the exact inverse of the commit's
per-item debit.  (The freshness hypotheses say the new sale id is not
already used, which the id counter guarantees.) -/
theorem C2_commit_then_refund_restores_inventory (db : DB) (cashier : Nat)
    (customer : Option Nat) (total_amount discount tax final_amount : ℚ)
    (payment_method reference_number : String) (items : List LineItem)
    (sid : Nat) (db1 : DB)
    (hs : ∀ s ∈ db.sales, s.sid ≠ db.nextSaleId)
    (hi : ∀ it ∈ db.saleItems, it.sale ≠ db.nextSaleId)
    (hc : SaleViewSet.create db cashier customer total_amount discount tax final_amount
        payment_method reference_number items = (.created sid, db1)) :
    (SaleViewSet.refund_sale db1 sid).1 = RefundResp.ok ∧
    ∀ pid, getQty (SaleViewSet.refund_sale db1 sid).2.inventory pid =
      getQty db.inventory pid := by
  by_cases hv : itemsValid db items = true
  case neg =>
    unfold SaleViewSet.create at hc
    rw [if_neg hv] at hc
    simp at hc
  case pos =>
    rw [create_eq_of_valid db cashier customer total_amount discount tax final_amount
      payment_method reference_number items hv] at hc
    rw [Prod.mk.injEq] at hc
    obtain ⟨hsid, hdb1⟩ := hc
    injection hsid with hsid
    subst hsid
    subst hdb1
    have hnone : db.sales.find? (fun s => decide (s.sid = db.nextSaleId)) = none :=
      find?_eq_none_of (fun s hsm => by simp [hs s hsm])
    have hfind : (db.sales ++
        [(⟨db.nextSaleId, cashier, customer, total_amount, discount, tax, final_amount,
          payment_method, reference_number, db.now, false⟩ : SaleRow)]).find?
          (fun s => decide (s.sid = db.nextSaleId)) =
        some (⟨db.nextSaleId, cashier, customer, total_amount, discount, tax, final_amount,
          payment_method, reference_number, db.now, false⟩ : SaleRow) := by
      rw [find?_append_none hnone]
      simp [List.find?]
    constructor
    · exact refund_resp_eq _ _ _ hfind rfl
    · intro pid
      rw [refund_inventory_eq _ _ _ hfind rfl]
      show getQty (((db.saleItems ++ items.map (rowOf db.products db.nextSaleId)).filter
          (fun it2 => decide (it2.sale = db.nextSaleId))).foldl
          (fun i it2 => creditOne i it2.pid it2.quantity)
          (debitList db.inventory (items.map (fun it2 => (it2.pid, it2.quantity))))) pid =
        getQty db.inventory pid
      have hfilter : (db.saleItems ++ items.map (rowOf db.products db.nextSaleId)).filter
          (fun it2 => decide (it2.sale = db.nextSaleId)) =
          items.map (rowOf db.products db.nextSaleId) := by
        rw [List.filter_append,
          filter_eq_nil_of (fun a ha => by simp [hi a ha]),
          filter_eq_self_of (fun a ha => ?_)]
        · simp
        · obtain ⟨it2, hmem2, hrow⟩ := List.mem_map.mp ha
          subst hrow
          simp [rowOf_sale]
      rw [hfilter, creditFold_eq, List.map_map,
        show ((fun it2 : SaleItemRow => (it2.pid, it2.quantity)) ∘
            rowOf db.products db.nextSaleId) =
          (fun it2 : LineItem => (it2.pid, it2.quantity)) from
          funext (fun it2 => by simp [Function.comp, rowOf_pid, rowOf_quantity])]
      exact creditList_debitList_roundtrip db.inventory _ pid

/-- Witness for C2: selling 3 units of product 1 (10 on hand) and
refunding the sale restores the quantity. -/
theorem C2_commit_then_refund_restores_inventory_witness :
    (SaleViewSet.refund_sale dbC2sold 0).1 = RefundResp.ok ∧
    getQty (SaleViewSet.refund_sale dbC2sold 0).2.inventory 1 =
      getQty dbC2.inventory 1 := by
  have h := C2_commit_then_refund_restores_inventory dbC2 5 none 15 0 0 15 "cash" ""
    [⟨1, 3, none⟩] 0 dbC2sold
    (by intro s hsm; simp [dbC2] at hsm)
    (by intro it hm; simp [dbC2] at hm)
    rfl
  exact ⟨h.1, h.2 1⟩

/-- C3: refund is strictly at-most-once.  First, `refund_sale` on a sale
whose `is_refunded` flag is already set fails with the already-refunded
error and performs no mutation (the state is returned unchanged).  Second,
after any successful refund, every further `refund_sale` on the same sale
fails the same way with the state unchanged, so across any sequence of
calls the inventory credit happens exactly once (on the first successful
call). -/
theorem C3_refund_at_most_once :
    (∀ (db : DB) (sid : Nat) (sale : SaleRow),
        db.sales.find? (fun s => decide (s.sid = sid)) = some sale →
        sale.is_refunded = true →
        SaleViewSet.refund_sale db sid = (.alreadyRefunded, db)) ∧
    (∀ (db db' : DB) (sid : Nat),
        SaleViewSet.refund_sale db sid = (.ok, db') →
        SaleViewSet.refund_sale db' sid = (.alreadyRefunded, db')) := by
  constructor
  · intro db sid sale hfind hr
    exact refund_already db sid sale hfind hr
  · intro db db' sid hok
    cases hfind : db.sales.find? (fun s => decide (s.sid = sid)) with
    | none =>
      unfold SaleViewSet.refund_sale at hok
      rw [hfind] at hok
      simp at hok
    | some sale =>
      cases hr : sale.is_refunded with
      | true =>
        rw [refund_already db sid sale hfind hr] at hok
        simp at hok
      | false =>
        rw [refund_eq_of db sid sale hfind hr, Prod.mk.injEq] at hok
        obtain ⟨-, hdb'⟩ := hok
        subst hdb'
        exact refund_already _ sid { sale with is_refunded := true }
          (find?_sales_after_refund db sid sale hfind) rfl

/-- Witness for C3: refunding sale 1 of `dbC3` once succeeds; the second
call fails with the already-refunded error and leaves the state
unchanged. -/
theorem C3_refund_at_most_once_witness :
    SaleViewSet.refund_sale dbC3refunded 1 = (.alreadyRefunded, dbC3refunded) :=
  C3_refund_at_most_once.2 dbC3 dbC3refunded 1 rfl

/-- C8: `commit_sale` debits unconditionally, with no lower-bound check:
the committed quantity is subtracted outright, and whenever one line
item's quantity alone exceeds the product's quantity-on-hand (quantities
being non-negative), the resulting quantity is strictly negative — an
oversell is neither rejected nor clamped. -/
theorem C8_oversell_goes_negative (db : DB) (cashier : Nat) (customer : Option Nat)
    (total_amount discount tax final_amount : ℚ) (payment_method reference_number : String)
    (items : List LineItem) (sid : Nat) (db1 : DB) (it : LineItem)
    (hc : SaleViewSet.create db cashier customer total_amount discount tax final_amount
        payment_method reference_number items = (.created sid, db1))
    (hmem : it ∈ items)
    (hk : hasKey db.inventory it.pid = true)
    (hpos : ∀ j ∈ items, 0 ≤ j.quantity)
    (hover : getQty db.inventory it.pid < it.quantity) :
    getQty db1.inventory it.pid =
      getQty db.inventory it.pid -
        ((items.filter (fun j => decide (j.pid = it.pid))).map (fun j => j.quantity)).sum ∧
    getQty db1.inventory it.pid < 0 := by
  by_cases hv : itemsValid db items = true
  case neg =>
    unfold SaleViewSet.create at hc
    rw [if_neg hv] at hc
    simp at hc
  case pos =>
    rw [create_eq_of_valid db cashier customer total_amount discount tax final_amount
      payment_method reference_number items hv] at hc
    rw [Prod.mk.injEq] at hc
    obtain ⟨-, hdb1⟩ := hc
    subst hdb1
    have heq : getQty (debitList db.inventory (items.map (fun j => (j.pid, j.quantity)))) it.pid =
        getQty db.inventory it.pid -
          ((items.filter (fun j => decide (j.pid = it.pid))).map (fun j => j.quantity)).sum := by
      rw [getQty_debitList _ _ _ hk, filter_map_comm, List.map_map]
      rfl
    refine ⟨heq, ?_⟩
    show getQty (debitList db.inventory (items.map (fun j => (j.pid, j.quantity)))) it.pid < 0
    rw [heq]
    have hmem2 : it.quantity ∈
        (items.filter (fun j => decide (j.pid = it.pid))).map (fun j => j.quantity) :=
      List.mem_map_of_mem _ (List.mem_filter.mpr ⟨hmem, by simp⟩)
    have hnonneg : ∀ q ∈ (items.filter (fun j => decide (j.pid = it.pid))).map
        (fun j => j.quantity), 0 ≤ q := by
      intro q hq
      obtain ⟨j, hj, hjq⟩ := List.mem_map.mp hq
      subst hjq
      exact hpos j (List.mem_of_mem_filter hj)
    have hle : it.quantity ≤
        ((items.filter (fun j => decide (j.pid = it.pid))).map (fun j => j.quantity)).sum :=
      List.single_le_sum hnonneg _ hmem2
    linarith

/-- Witness for C8: selling 12 units of product 1 with 10 on hand leaves
`quantity_on_hand = 10 - 12 < 0`. -/
theorem C8_oversell_goes_negative_witness :
    getQty dbC8sold.inventory 1 < 0 :=
  (C8_oversell_goes_negative dbC2 5 none 60 0 0 60 "cash" "" [⟨1, 12, none⟩] 0 dbC8sold
    ⟨1, 12, none⟩ rfl (by simp) rfl
    (by intro j hj; simp at hj; subst hj; norm_num)
    (by norm_num [getQty, dbC2, List.find?])).2

/-- C6: the claim says the margin computation is total, reporting zero when
the selling price is zero.  models.py `Product.margin` guards
`cost_price == 0` but divides by `selling_price`: at `cost_price = 1`,
`selling_price = 0` it raises a division-by-zero error (`none`), while the
serializer path `get_margin` (which guards the right operand) returns 0
there as the claim states. -/
theorem C6_product_margin_division_by_zero :
    Product.margin 1 0 = none ∧ ProductDetailSerializer.get_margin 1 0 = 0 := by
  constructor <;> norm_num [Product.margin, ProductDetailSerializer.get_margin, divD]

/-- C1: the claim says a `commit_sale` failing partway (unknown product id
on a later line item) persists no Sale row, no SaleItem row and no
inventory mutation.  The code has no transaction: running the legacy
`create_sale` on two line items, the second naming the unknown product 2,
returns the error response while the state keeps the Sale row, the first
SaleItem, and the inventory debit of product 1 (10 → 7). -/
theorem C1_create_sale_partial_persistence :
    (create_sale dbC1 5 25 0 0 25 "cash" "" [(1, 3), (2, 1)]).1 = LegacyResp.failure 2 ∧
    (create_sale dbC1 5 25 0 0 25 "cash" "" [(1, 3), (2, 1)]).2.sales.length = 1 ∧
    (create_sale dbC1 5 25 0 0 25 "cash" "" [(1, 3), (2, 1)]).2.saleItems.length = 1 ∧
    getQty (create_sale dbC1 5 25 0 0 25 "cash" "" [(1, 3), (2, 1)]).2.inventory 1 = 7 := by
  refine ⟨?_, ?_, ?_, ?_⟩ <;>
    norm_num [create_sale, legacy_sale_loop, findProduct, dbC1, debitOne, modifyQty, getQty,
      List.find?]

/-- C4 counterexample: the claim says every `commit_sale` invocation with
an empty item list fails with `ValidationError` and creates no Sale row,
but the legacy `create_sale` view (views.py lines 135-180) performs no
item validation: with `items = []` it answers success and a Sale row is
created. -/
theorem C4_counterexample_legacy_empty_sale :
    (create_sale dbC4 5 0 0 0 0 "cash" "" []).1 = LegacyResp.success 0 ∧
    (create_sale dbC4 5 0 0 0 0 "cash" "" []).2.sales.length = 1 := by
  constructor <;> norm_num [create_sale, legacy_sale_loop, dbC4]

/-- C4 (amended): through the API path `SaleViewSet.create`, an empty item
list is rejected by `SaleCreateSerializer.validate_items` with a
`ValidationError` before anything is written: the response is the
validation error and the state is returned unchanged (no Sale row, no
SaleItem row, no inventory mutation). -/
theorem C4_api_empty_items_rejected (db : DB) (cashier : Nat) (customer : Option Nat)
    (total_amount discount tax final_amount : ℚ)
    (payment_method reference_number : String) :
    SaleViewSet.create db cashier customer total_amount discount tax final_amount
      payment_method reference_number [] = (.validationError, db) :=
  rfl

/-- C5: closing an open drawer with a supplied `closing_balance` returns a
report with `difference = closing_balance − opening_balance` and
`expected_cash` equal to the spec's sum (`final_amount` over all
cash-payment Sales by the drawer's cashier with
`created_at ≥ opened_at`). -/
theorem C5_close_drawer_reconciliation (db : DB) (did : Nat) (cb : ℚ) (drawer : Drawer)
    (hfind : db.drawers.find? (fun d => decide (d.did = did)) = some drawer)
    (hopen : drawer.is_open = true) :
    (CashDrawerViewSet.close_drawer db did (some cb)).1 =
      CloseResp.closed
        ⟨drawer.opening_balance, cb, cb - drawer.opening_balance,
          specExpectedCash db.sales drawer⟩ := by
  have habc : ∀ a b c : Bool, ((a && b) && c) = ((c && a) && b) := by decide
  have hfilter :
      (fun s : SaleRow =>
        decide (s.cashier = drawer.cashier) && decide (drawer.opened_at ≤ s.created_at) &&
          decide (s.payment_method = "cash")) =
      (fun s : SaleRow =>
        decide (s.payment_method = "cash") && decide (s.cashier = drawer.cashier) &&
          decide (drawer.opened_at ≤ s.created_at)) := by
    funext s
    exact habc _ _ _
  simp [CashDrawerViewSet.close_drawer, hfind, hopen, specExpectedCash, hfilter]

/-- Witness for C5: closing drawer 1 of `dbC5` with closing balance 150
reports difference 50 and expected cash 50. -/
theorem C5_close_drawer_reconciliation_witness :
    (CashDrawerViewSet.close_drawer dbC5 1 (some 150)).1 =
      CloseResp.closed ⟨100, 150, 50, 50⟩ := by
  have h := C5_close_drawer_reconciliation dbC5 1 150 drawerC5 rfl rfl
  rw [h]
  norm_num [specExpectedCash, dbC5, drawerC5, List.filter]

/-- C7: first, if an open drawer exists for the cashier, `open_drawer`
returns it with the state unchanged (so all its fields, including
`opening_balance`, are untouched and the argument is ignored); second,
calling `open_drawer` twice in a row with no intervening close returns the
same drawer and the same state both times, creating no second open
drawer. -/
theorem C7_open_drawer_idempotent :
    (∀ (db : DB) (c : Nat) (ob : ℚ) (d : Drawer),
        db.drawers.find? (fun x => decide (x.cashier = c) && x.is_open) = some d →
        CashDrawerViewSet.open_drawer db c ob = (d, db)) ∧
    (∀ (db : DB) (c : Nat) (ob ob' : ℚ),
        CashDrawerViewSet.open_drawer (CashDrawerViewSet.open_drawer db c ob).2 c ob' =
          CashDrawerViewSet.open_drawer db c ob) := by
  constructor
  · intro db c ob d h
    simp [CashDrawerViewSet.open_drawer, h]
  · intro db c ob ob'
    cases hf : db.drawers.find? (fun x => decide (x.cashier = c) && x.is_open) with
    | some d => simp [CashDrawerViewSet.open_drawer, hf]
    | none =>
      simp only [CashDrawerViewSet.open_drawer, hf]
      rw [find?_append_none hf]
      simp [List.find?]

/-- Witness for C7: with drawer 1 already open for cashier 7, `open_drawer`
returns it and leaves the state unchanged. -/
theorem C7_open_drawer_idempotent_witness :
    CashDrawerViewSet.open_drawer dbC7 7 55 = (drawerC7, dbC7) :=
  C7_open_drawer_idempotent.1 dbC7 7 55 drawerC7 rfl

/-- Two maps of an option with pointwise-equal functions agree. -/
theorem option_map_ext {α β : Type} {f f2 : α → β} (h : ∀ a, f a = f2 a) (o : Option α) :
    o.map f = o.map f2 := by
  cases o with
  | none => rfl
  | some a => simp [h a]

/-- `saleProfit` reads only the item and product tables. -/
theorem saleProfit_congr (dbA dbB : DB) (hitems : dbA.saleItems = dbB.saleItems)
    (hprod : dbA.products = dbB.products) (sid : Nat) :
    saleProfit dbA sid = saleProfit dbB sid := by
  unfold saleProfit itemsOfSale cost_price_of findProduct
  rw [hitems, hprod]

/-- `product_name_of` reads only the product table. -/
theorem product_name_of_congr (dbA dbB : DB) (hprod : dbA.products = dbB.products)
    (pid : Nat) : product_name_of dbA pid = product_name_of dbB pid := by
  unfold product_name_of findProduct
  rw [hprod]

/-- `saleDate` is unchanged when the sale table is mapped by a function
preserving `sid` and `created_at`. -/
theorem saleDate_congr (dbA dbB : DB) (g : SaleRow → SaleRow)
    (hsales : dbA.sales = dbB.sales.map g)
    (hsid : ∀ s, (g s).sid = s.sid)
    (hca : ∀ s, (g s).created_at = s.created_at) (sid : Nat) :
    saleDate dbA sid = saleDate dbB sid := by
  unfold saleDate
  rw [hsales, find?_map,
    show (fun b : SaleRow => (fun s : SaleRow => decide (s.sid = sid)) (g b)) =
      (fun b : SaleRow => decide (b.sid = sid)) from funext (fun b => by
        show decide ((g b).sid = sid) = decide (b.sid = sid)
        rw [hsid b]),
    Option.map_map]
  exact option_map_ext (fun s => by
    show dateOf (g s).created_at = dateOf s.created_at
    rw [hca s]) _

/-- `top_products_for` is unchanged when the sale table is mapped by a
function preserving `sid` and `created_at` (it reads sales only through
the per-item date join). -/
theorem top_products_congr (d : Nat) (dbA dbB : DB) (g : SaleRow → SaleRow)
    (hsales : dbA.sales = dbB.sales.map g)
    (hitems : dbA.saleItems = dbB.saleItems)
    (hprod : dbA.products = dbB.products)
    (hsid : ∀ s, (g s).sid = s.sid)
    (hca : ∀ s, (g s).created_at = s.created_at) :
    top_products_for dbA d = top_products_for dbB d := by
  have hsd : ∀ sid, saleDate dbA sid = saleDate dbB sid :=
    saleDate_congr dbA dbB g hsales hsid hca
  have hpn : ∀ pid, product_name_of dbA pid = product_name_of dbB pid :=
    product_name_of_congr dbA dbB hprod
  unfold top_products_for
  rw [hitems,
    filter_ext (fun it => by rw [hsd it.sale]) dbB.saleItems,
    map_ext (fun it => by rw [hpn it.pid])
      (dbB.saleItems.filter (fun it => decide (saleDate dbB it.sale = some d)))]
  congr 1
  congr 1
  apply map_ext
  intro n
  rw [filter_ext (fun it => by rw [hpn it.pid])
    (dbB.saleItems.filter (fun it => decide (saleDate dbB it.sale = some d)))]

/-- `daily_summary` is unchanged when the sale table is mapped by any
function preserving `sid`, `created_at`, `final_amount` and
`payment_method` — in particular it never reads `is_refunded`. -/
theorem daily_summary_congr (d : Nat) (dbA dbB : DB) (g : SaleRow → SaleRow)
    (hsales : dbA.sales = dbB.sales.map g)
    (hitems : dbA.saleItems = dbB.saleItems)
    (hprod : dbA.products = dbB.products)
    (hsid : ∀ s, (g s).sid = s.sid)
    (hca : ∀ s, (g s).created_at = s.created_at)
    (hfa : ∀ s, (g s).final_amount = s.final_amount)
    (hpm : ∀ s, (g s).payment_method = s.payment_method) :
    SaleViewSet.daily_summary dbA d = SaleViewSet.daily_summary dbB d := by
  have hA : (dbB.sales.map g).filter (fun s => decide (dateOf s.created_at = d)) =
      (dbB.sales.filter (fun s => decide (dateOf s.created_at = d))).map g := by
    rw [filter_map_comm]
    exact congrArg _ (filter_ext (fun s => by
      show decide (dateOf (g s).created_at = d) = decide (dateOf s.created_at = d)
      rw [hca s]) _)
  unfold SaleViewSet.daily_summary
  rw [hsales, hA, List.length_map,
    show ((dbB.sales.filter (fun s => decide (dateOf s.created_at = d))).map g).map
        (fun s => s.final_amount) =
      (dbB.sales.filter (fun s => decide (dateOf s.created_at = d))).map
        (fun s => s.final_amount) from by
      rw [List.map_map]
      exact map_ext (fun s => hfa s) _,
    show ((dbB.sales.filter (fun s => decide (dateOf s.created_at = d))).map g).map
        (fun s => saleProfit dbA s.sid) =
      (dbB.sales.filter (fun s => decide (dateOf s.created_at = d))).map
        (fun s => saleProfit dbB s.sid) from by
      rw [List.map_map]
      exact map_ext (fun s => by
        show saleProfit dbA (g s).sid = saleProfit dbB s.sid
        rw [hsid s, saleProfit_congr dbA dbB hitems hprod]) _,
    show ((dbB.sales.filter (fun s => decide (dateOf s.created_at = d))).map g).map
        (fun s => s.payment_method) =
      (dbB.sales.filter (fun s => decide (dateOf s.created_at = d))).map
        (fun s => s.payment_method) from by
      rw [List.map_map]
      exact map_ext (fun s => hpm s) _,
    top_products_congr d dbA dbB g hsales hitems hprod hsid hca]
  congr 1
  apply map_ext
  intro m
  rw [show ((dbB.sales.filter (fun s => decide (dateOf s.created_at = d))).map g).filter
      (fun s => decide (s.payment_method = m)) =
    ((dbB.sales.filter (fun s => decide (dateOf s.created_at = d))).filter
      (fun s => decide (s.payment_method = m))).map g from by
    rw [filter_map_comm]
    exact congrArg _ (filter_ext (fun s => by
      show decide ((g s).payment_method = m) = decide (s.payment_method = m)
      rw [hpm s]) _),
    List.length_map,
    show (((dbB.sales.filter (fun s => decide (dateOf s.created_at = d))).filter
        (fun s => decide (s.payment_method = m))).map g).map (fun s => s.final_amount) =
      ((dbB.sales.filter (fun s => decide (dateOf s.created_at = d))).filter
        (fun s => decide (s.payment_method = m))).map (fun s => s.final_amount) from by
      rw [List.map_map]
      exact map_ext (fun s => hfa s) _]

/-- C9: the `daily_summary` aggregation never reads the `is_refunded`
flag: first, overwriting every sale's flag arbitrarily leaves the whole
summary (totals, count, average, profit, top products, payment
distribution) unchanged, so refunded sales are included like any others;
second, a successful `refund_sale` leaves every `daily_summary` unchanged
— refunding a sale does not reduce reported revenue. -/
theorem C9_daily_summary_includes_refunded :
    (∀ (db : DB) (f : Nat → Bool) (d : Nat),
        SaleViewSet.daily_summary (setFlags db f) d = SaleViewSet.daily_summary db d) ∧
    (∀ (db db' : DB) (sid : Nat),
        SaleViewSet.refund_sale db sid = (.ok, db') →
        ∀ d, SaleViewSet.daily_summary db' d = SaleViewSet.daily_summary db d) := by
  constructor
  · intro db f d
    exact daily_summary_congr d (setFlags db f) db
      (fun s => { s with is_refunded := f s.sid })
      rfl rfl rfl (fun s => rfl) (fun s => rfl) (fun s => rfl) (fun s => rfl)
  · intro db db' sid hok d
    cases hfind : db.sales.find? (fun s => decide (s.sid = sid)) with
    | none =>
      unfold SaleViewSet.refund_sale at hok
      rw [hfind] at hok
      simp at hok
    | some sale =>
      cases hr : sale.is_refunded with
      | true =>
        rw [refund_already db sid sale hfind hr] at hok
        simp at hok
      | false =>
        rw [refund_eq_of db sid sale hfind hr, Prod.mk.injEq] at hok
        obtain ⟨-, hdb'⟩ := hok
        subst hdb'
        exact daily_summary_congr d _ db
          (fun s => if s.sid = sid then { s with is_refunded := true } else s)
          rfl rfl rfl
          (fun s => by by_cases h : s.sid = sid <;> simp [h])
          (fun s => by by_cases h : s.sid = sid <;> simp [h])
          (fun s => by by_cases h : s.sid = sid <;> simp [h])
          (fun s => by by_cases h : s.sid = sid <;> simp [h])

/-- Witness for C9: refunding sale 1 of `dbC9` leaves the daily summary of
day 0 unchanged. -/
theorem C9_daily_summary_includes_refunded_witness :
    SaleViewSet.daily_summary dbC9refunded 0 = SaleViewSet.daily_summary dbC9 0 :=
  C9_daily_summary_includes_refunded.2 dbC9 dbC9refunded 1 rfl 0

/-- Characterisation of the purchase item loop: it only appends the
purchase-item rows (never touching inventory). -/
theorem purchaseFold_eq (prid : Nat) (items : List PurchaseLineItem) :
    ∀ d : DB, items.foldl (fun d it =>
        { d with purchaseItems :=
            d.purchaseItems ++ [⟨prid, it.pid, it.quantity, it.unit_cost,
              it.quantity * it.unit_cost⟩] }) d =
      { d with
          purchaseItems := d.purchaseItems ++
            items.map (fun it => (⟨prid, it.pid, it.quantity, it.unit_cost,
              it.quantity * it.unit_cost⟩ : PurchaseItemRow)) } := by
  induction items with
  | nil =>
    intro d
    simp
  | cons it items ih =>
    intro d
    rw [List.foldl_cons, ih]
    simp [List.append_assoc]

/-- Characterisation of a valid `PurchaseViewSet.create`: the Purchase row
with the supplied status, one PurchaseItem per line, inventory
untouched. -/
theorem purchase_create_eq_of_valid (db : DB) (supplier : Nat) (total_amount : ℚ)
    (received_by delivery_date : Nat) (stat : String) (items : List PurchaseLineItem)
    (hv : purchaseValid db supplier stat items = true) :
    PurchaseViewSet.create db supplier total_amount received_by delivery_date stat items =
      (.created db.nextPurchaseId,
        { db with
            purchases := db.purchases ++
              [⟨db.nextPurchaseId, supplier, total_amount, received_by, delivery_date, stat⟩],
            nextPurchaseId := db.nextPurchaseId + 1,
            purchaseItems := db.purchaseItems ++ items.map
              (fun it => ⟨db.nextPurchaseId, it.pid, it.quantity, it.unit_cost,
                it.quantity * it.unit_cost⟩) }) := by
  unfold PurchaseViewSet.create
  rw [if_pos hv,
    purchaseFold_eq db.nextPurchaseId items
      { db with
          purchases := db.purchases ++
            [⟨db.nextPurchaseId, supplier, total_amount, received_by, delivery_date, stat⟩],
          nextPurchaseId := db.nextPurchaseId + 1 }]

/-- `mark_received` on a purchase whose status is already `"received"`
answers the already-received error with the state unchanged. -/
theorem mark_received_already (db : DB) (prid : Nat) (purchase : PurchaseRow)
    (hfind : db.purchases.find? (fun p => decide (p.prid = prid)) = some purchase)
    (hst : purchase.status = "received") :
    PurchaseViewSet.mark_received db prid = (.alreadyReceived, db) := by
  unfold PurchaseViewSet.mark_received
  rw [hfind]
  simp [hst]

/-- C10: a purchase committed with status `"received"` never triggers the
pending-to-received inventory credit: its creation leaves inventory
untouched, and any later `mark_received` fails with the already-received
error and the state unchanged — the credit happens zero times for such a
purchase.  (The freshness hypothesis says the new purchase id is unused,
which the id counter guarantees.) -/
theorem C10_received_purchase_never_credits (db : DB) (supplier : Nat)
    (total_amount : ℚ) (received_by delivery_date : Nat)
    (items : List PurchaseLineItem) (prid : Nat) (db' : DB)
    (hfresh : ∀ p ∈ db.purchases, p.prid ≠ db.nextPurchaseId)
    (hc : PurchaseViewSet.create db supplier total_amount received_by delivery_date
        "received" items = (.created prid, db')) :
    db'.inventory = db.inventory ∧
    PurchaseViewSet.mark_received db' prid = (.alreadyReceived, db') := by
  by_cases hv : purchaseValid db supplier "received" items = true
  case neg =>
    unfold PurchaseViewSet.create at hc
    rw [if_neg hv] at hc
    simp at hc
  case pos =>
    rw [purchase_create_eq_of_valid db supplier total_amount received_by delivery_date
      "received" items hv, Prod.mk.injEq] at hc
    obtain ⟨hprid, hdb'⟩ := hc
    injection hprid with hprid
    subst hprid
    subst hdb'
    have hnone : db.purchases.find? (fun p => decide (p.prid = db.nextPurchaseId)) = none :=
      find?_eq_none_of (fun p hpm => by simp [hfresh p hpm])
    constructor
    · rfl
    · refine mark_received_already _ db.nextPurchaseId
        ⟨db.nextPurchaseId, supplier, total_amount, received_by, delivery_date, "received"⟩
        ?_ rfl
      show (db.purchases ++
          [(⟨db.nextPurchaseId, supplier, total_amount, received_by, delivery_date,
            "received"⟩ : PurchaseRow)]).find?
          (fun p => decide (p.prid = db.nextPurchaseId)) = _
      rw [find?_append_none hnone]
      simp [List.find?]

/-- Witness for C10: creating a purchase of 5 units of product 1 with
status `"received"` in `dbC10` leaves inventory unchanged, and
`mark_received` on it fails with the already-received error. -/
theorem C10_received_purchase_never_credits_witness :
    dbC10created.inventory = dbC10.inventory ∧
    PurchaseViewSet.mark_received dbC10created 0 = (.alreadyReceived, dbC10created) :=
  C10_received_purchase_never_credits dbC10 3 10 5 30 [⟨1, 5, 2⟩] 0 dbC10created
    (by intro p hp; simp [dbC10] at hp) rfl

end SmartPOS
